import Mathlib

/-! Shallow embedding of `esphome/components/lvgl/lv_validation.py`: the
value-validation and expression-emission layer for LVGL widget properties.
Python functions become Lean functions over an explicit `Value` type; fallible
validators return `Except String`; the process-wide resource registries are
threaded as explicit state.  Python floats are modelled as exact decimal
numbers `man / 10 ^ exp` (configuration values are decimal literals), so all
validator arithmetic is integer arithmetic; theorem statements connect the
results to `ℚ` and `Int.floor`. -/

namespace LvValidation

/-- An exact decimal number `man / 10 ^ exp`: the model of the Python floats
flowing through these validators. -/
structure Dec where
  man : Int
  exp : Nat
deriving DecidableEq, Repr

/-- The rational value denoted by a `Dec`. -/
def Dec.toRat (d : Dec) : ℚ := (d.man : ℚ) / (10 : ℚ) ^ d.exp

/-- Python `int(d * k)`: truncating integer conversion of the exact product. -/
def Dec.pyIntMul (d : Dec) (k : Int) : Int := (d.man * k).tdiv (10 ^ d.exp)

/-- Dividing a decimal by `10 ^ k` (used for `"..%" / 100`). -/
def Dec.divPow10 (d : Dec) (k : Nat) : Dec := ⟨d.man, d.exp + k⟩

/-- Python configuration values reaching this module: integers, floats
(as exact decimals), strings, identifier references to declared entities,
inline lambda expressions, lists, dicts (as association lists), the list of
shape descriptions returned by describe mode, and the `SCHEMA_EXTRACT`
documentation sentinel. -/
inductive Value where
  | int (n : Int)
  | float (d : Dec)
  | str (s : String)
  | id (name : String)
  | lam (body : String)
  | list (xs : List Value)
  | dict (entries : List (String × Value))
  | strList (ss : List String)
  | extract
deriving Repr

/-- `str.lower()` on the character list (structural, so it evaluates in the
kernel; ASCII, as in the configuration values at hand). -/
def strLower (s : String) : String := String.mk (s.toList.map Char.toLower)

/-- `str.upper()` on the character list. -/
def strUpper (s : String) : String := String.mk (s.toList.map Char.toUpper)

/-- `str.endswith(p)` on the character lists. -/
def strEndsWith (s p : String) : Bool := p.toList.isSuffixOf s.toList

/-- `str.startswith(p)` on the character lists. -/
def strStartsWith (s p : String) : Bool := p.toList.isPrefixOf s.toList

/-- `s[:-n]` on the character list. -/
def strDropRight (s : String) (n : Nat) : String :=
  String.mk (s.toList.take (s.toList.length - n))

/-- `s[n:]` on the character list. -/
def strDrop (s : String) (n : Nat) : String := String.mk (s.toList.drop n)

/-- Splitting a character list at the dot character (for decimal numerals). -/
def splitDot (cs : List Char) : List (List Char) :=
  cs.foldr
    (fun c acc =>
      match acc with
      | [] => if c = '.' then [[], []] else [[c]]
      | hd :: tl => if c = '.' then [] :: hd :: tl else (c :: hd) :: tl)
    [[]]

/-- Python `dict[key]` over the association-list model (first match wins). -/
def dictGet (key : String) : List (String × Value) → Option Value
  | [] => none
  | (k, v) :: rest => if k = key then some v else dictGet key rest

/-- Python `str(x)` for the value shapes that occur as `str_sprintf`
arguments; identifiers and lambda bodies render verbatim.  (Container reprs
are placeholders: no claim stringifies a container.) -/
def pyStr : Value → String
  | .int n => toString n
  | .float d => toString d.man ++ "e-" ++ toString d.exp
  | .str s => s
  | .id name => name
  | .lam body => body
  | .list _ => "list"
  | .dict _ => "dict"
  | .strList _ => "list"
  | .extract => "SCHEMA_EXTRACT"

/-- The numeric value of a nonempty string of decimal digits. -/
def digitsVal (cs : List Char) : Option Nat :=
  if cs ≠ [] ∧ cs.all Char.isDigit then
    some (cs.foldl (fun a c => 10 * a + (c.toNat - 48)) 0)
  else none

/-- Modelled from the spec: Python `int(...)` string parsing as used by the
external `cv.int_` primitive (missing from `src/`): an optional sign followed
by decimal digits. -/
def parseInt (s : String) : Option Int :=
  if strStartsWith s "-" then (digitsVal (strDrop s 1).toList).map (fun n => -(n : Int))
  else (digitsVal s.toList).map (fun n => (n : Int))

/-- Modelled from the spec: Python `float(...)` parsing of a decimal numeral
(as used by the external percentage primitive, missing from `src/`): an
optional sign, an integer part, and an optional fractional part. -/
def parseDec (s : String) : Option Dec :=
  let core := fun (t : String) =>
    match splitDot t.toList with
    | [w] => (digitsVal w).map (fun n => (⟨(n : Int), 0⟩ : Dec))
    | [w, f] =>
      match digitsVal w, digitsVal f with
      | some wn, some fn => some ⟨(wn * 10 ^ f.length + fn : Int), f.length⟩
      | _, _ => none
    | _ => none
  if strStartsWith s "-" then
    (core (strDrop s 1)).map (fun d => ⟨-d.man, d.exp⟩)
  else core s

/-- The three process-wide resource-usage registries from `helpers`
(missing from `src/`); Python sets are modelled as duplicate-free lists. -/
structure Registries where
  lv_fonts_used : List String
  esphome_fonts_used : List String
  lvgl_components_required : List String
deriving DecidableEq, Repr

/-- Python `set.add`: insert only when absent. -/
def addOnce (x : String) (l : List String) : List String :=
  if x ∈ l then l else l ++ [x]

/-- The declared entities visible to identifier lookup: the declared font
assets and the declared color entities. -/
structure Env where
  declaredFonts : List String
  declaredColors : List String
deriving DecidableEq, Repr

/-- Modelled from the spec: `cv.use_id` (missing from `src/`), the
lookup-by-identifier resolution for declared entities; an identifier that does
not resolve fails with an unknown-reference error. -/
def cv_use_id (declared : List String) (v : Value) : Except String Value :=
  match v with
  | .id name =>
    if name ∈ declared then .ok (.id name)
    else .error ("unknown reference: couldn\x27t find declared entity " ++ name)
  | .str name =>
    if name ∈ declared then .ok (.id name)
    else .error ("unknown reference: couldn\x27t find declared entity " ++ name)
  | _ => .error "expected the ID of a declared entity"

/-- Modelled from the spec: the `cv.Any` schema combinator (missing from
`src/`): try each alternative in order, first success wins. -/
def cvAny2 (f g : Value → Except String Value) (v : Value) : Except String Value :=
  match f v with
  | .ok r => .ok r
  | .error e1 =>
    match g v with
    | .ok r => .ok r
    | .error e2 => .error (e1 ++ "; " ++ e2)

/-- Modelled from the spec: three-alternative `cv.Any`. -/
def cvAny3 (f g h : Value → Except String Value) (v : Value) : Except String Value :=
  match f v with
  | .ok r => .ok r
  | .error _ => cvAny2 g h v

/-- Modelled from the spec: `cv.int_` (missing from `src/`): accept an
integer, an integral float, or a string of digits. -/
def cv_int (v : Value) : Except String Value :=
  match v with
  | .int n => .ok (.int n)
  | .float d =>
    if d.man % (10 : Int) ^ d.exp = 0 then .ok (.int (d.man / (10 : Int) ^ d.exp))
    else .error "Expected integer"
  | .str s =>
    match parseInt s with
    | some n => .ok (.int n)
    | none => .error ("Expected integer, got " ++ s)
  | _ => .error "Expected integer"

/-- Modelled from the spec: `cv.zero_to_one_float` (missing from `src/`):
a number in the closed range [0, 1]; the comparisons are the cross-multiplied
integer forms of `0 ≤ d` and `d ≤ 1`. -/
def zero_to_one_float (d : Dec) : Except String Dec :=
  if 0 ≤ d.man ∧ d.man ≤ 10 ^ d.exp then .ok d
  else .error "Must be a percentage between 0% and 100%"

/-- Modelled from the spec: `cv.percentage` (missing from `src/`): a float,
an integer, or a string optionally suffixed `"%"` (then divided by 100),
constrained to [0, 1]; the result is a float. -/
def cv_percentage (v : Value) : Except String Value :=
  match v with
  | .float d => (zero_to_one_float d).map .float
  | .int n => (zero_to_one_float ⟨n, 0⟩).map .float
  | .str s =>
    if strEndsWith s "%" then
      match parseDec (strDropRight s 1) with
      | some d => (zero_to_one_float (d.divPow10 2)).map .float
      | none => .error "invalid number"
    else
      match parseDec s with
      | some d => (zero_to_one_float d).map .float
      | none => .error "invalid number"
  | _ => .error "expected percentage"

/-- Modelled from the spec: `cv.float_range(lo, hi)` (missing from `src/`):
a number within the closed range; comparisons are cross-multiplied integer
forms of `lo ≤ d` and `d ≤ hi`. -/
def cv_float_range (lo hi : Dec) (v : Value) : Except String Dec :=
  let check := fun (d : Dec) =>
    if lo.man * 10 ^ d.exp ≤ d.man * 10 ^ lo.exp ∧ d.man * 10 ^ hi.exp ≤ hi.man * 10 ^ d.exp
    then Except.ok d
    else Except.error "value out of range"
  match v with
  | .float d => check d
  | .int n => check ⟨n, 0⟩
  | _ => .error "expected float"

/-- Modelled from the spec: `cv.one_of(*choices, lower=True)` (missing from
`src/`): lowercases the input string and requires membership in the choice
set. -/
def cv_one_of_lower (choices : List String) (v : Value) : Except String Value :=
  match v with
  | .str s =>
    if strLower s ∈ choices then .ok (.str (strLower s))
    else .error ("Unknown value, must be one of " ++ String.intercalate ", " choices)
  | _ => .error "Unknown value"

/-- Modelled from the spec: `cv.string` (missing from `src/`): rejects
containers, keeps strings, stringifies other scalars. -/
def cv_string (v : Value) : Except String Value :=
  match v with
  | .dict _ => .error "string value cannot be a dictionary"
  | .list _ => .error "string value cannot be a list"
  | .str s => .ok (.str s)
  | v => .ok (.str (pyStr v))

/-- Modelled from the spec: `cpp_string_escape` from `esphome.helpers`
(missing from `src/`), the literal-escaping utility: printable ASCII other
than backslash and double quote passes through, everything else becomes a
three-digit octal escape, and the result is wrapped in double quotes. -/
def cpp_string_escape (s : String) : String :=
  let octal3 := fun (n : Nat) =>
    String.mk [Char.ofNat (48 + n / 64 % 8), Char.ofNat (48 + n / 8 % 8), Char.ofNat (48 + n % 8)]
  let esc := fun (c : Char) =>
    if 32 ≤ c.toNat ∧ c.toNat < 127 ∧ c ≠ '\\' ∧ c ≠ '"' then String.singleton c
    else "\\" ++ octal3 c.toNat
  "\"" ++ String.join (s.toList.map esc) ++ "\""

/-- Modelled from the spec: the constant-set mapper `LvConstant` from
`defines` (missing from `src/`): a fixed name prefix plus the allowed
suffixes, enumerable for documentation mode. -/
structure LvConstant where
  pfx : String
  choices : List String

/-- Modelled from the spec: `LvConstant.one_of`: uppercase the input,
validate against the allowed suffix set under the fixed prefix (a full
prefixed spelling is also accepted), and return the prefixed token. -/
def LvConstant.one_of (c : LvConstant) (v : Value) : Except String Value :=
  match v with
  | .str s =>
    let u := strUpper s
    let full := if strStartsWith u c.pfx then u else c.pfx ++ u
    if full ∈ c.choices.map (fun suffix => c.pfx ++ suffix) then .ok (.str full)
    else .error ("Unknown value, must be one of " ++ String.intercalate ", " c.choices)
  | _ => .error "Unknown value"

/-- Source line 33: the opacity constant set `LV_OPA_` over `TRANSP`,
`COVER`. -/
def opacity_consts : LvConstant := ⟨"LV_OPA_", ["TRANSP", "COVER"]⟩

/-- Source `opacity_validator` (lines 36–43): describe mode returns the
constant choices; otherwise the value is a percentage or an opacity constant,
and a float result is converted by `int(value * 255)`. -/
def opacity_validator (v : Value) : Except String Value :=
  match v with
  | .extract => .ok (.strList opacity_consts.choices)
  | _ =>
    match cvAny2 cv_percentage opacity_consts.one_of v with
    | .error e => .error e
    | .ok (.float d) => .ok (.int (d.pyIntMul 255))
    | .ok val => .ok val

/-- Source `color` (lines 49–55): describe mode enumerates the shapes; an
integer passes unchanged; anything else must resolve to a declared color
entity. -/
def color (env : Env) (v : Value) : Except String Value :=
  match v with
  | .extract => .ok (.strList ["hex color value", "color ID"])
  | .int n => .ok (.int n)
  | v => cv_use_id env.declaredColors v

/-- Emitted target-language expressions of the constructed kind (the
`lv_expr` / `MockObj` builders are missing from `src/`; the spec models the
emitted expression as an opaque structured call). -/
inductive Emitted where
  | colorHex (value : Int)
  | colorFrom (name : String)
  | returningLambda (body : String)
deriving DecidableEq, Repr

/-- Source `color_retmapper` (lines 58–66): a lambda becomes a returning
lambda; an integer becomes the hex-color construction; anything else must be
an id, which adds `CONF_COLOR` to `lvgl_components_required` and becomes the
from-entity construction. -/
def color_retmapper (st : Registries) (v : Value) : Emitted × Registries :=
  match v with
  | .lam body => (.returningLambda body, st)
  | .int n => (.colorHex n, st)
  | v =>
    (.colorFrom (pyStr v),
      { st with lvgl_components_required := addOnce "color" st.lvgl_components_required })

/-- The percent-length emission shared by the length validators:
`f"lv_pct(int(cv.percentage(value) * 100))"`. -/
def lv_pct_expr (v : Value) : Except String Value :=
  match cv_percentage v with
  | .ok (.float d) => .ok (.str ("lv_pct(" ++ toString (d.pyIntMul 100) ++ ")"))
  | .ok _ => .error "percentage did not return a float"
  | .error e => .error e

/-- Source `pixels_or_percent_validator` (lines 72–79). -/
def pixels_or_percent_validator (v : Value) : Except String Value :=
  match v with
  | .extract => .ok (.strList ["pixels", "..%"])
  | .int n => cv_int (.int n)
  | v => lv_pct_expr v

/-- Source `zoom` (lines 87–89): a float in [0.1, 10.0], scaled by
`int(value * 256)`. -/
def zoom (v : Value) : Except String Int :=
  match cv_float_range ⟨1, 1⟩ ⟨10, 0⟩ v with
  | .ok d => .ok (d.pyIntMul 256)
  | .error e => .error e

/-- Source `size_validator` (lines 101–115): describe mode enumerates the
shapes; a string with suffix `"px"` (case-insensitive) is first converted by
`cv.int_` on the prefix; a remaining string not ending in `"%"` must spell
`SIZE_CONTENT` case-insensitively or fails; an integer passes through
`cv.int_`; everything else is emitted as a percent length. -/
def size_validator (v0 : Value) : Except String Value :=
  match v0 with
  | .extract => .ok (.strList ["size_content", "pixels", "..%"])
  | _ =>
    let step1 : Except String Value :=
      match v0 with
      | .str s =>
        if strEndsWith (strLower s) "px" then cv_int (.str (strDropRight s 2)) else .ok (.str s)
      | v => .ok v
    match step1 with
    | .error e => .error e
    | .ok (.str s) =>
      if ¬ strEndsWith s "%" then
        if strUpper s = "SIZE_CONTENT" then .ok (.str "LV_SIZE_CONTENT")
        else .error "must be \x27size_content\x27, a pixel position or a percentage"
      else lv_pct_expr (.str s)
    | .ok (.int n) => cv_int (.int n)
    | .ok v => lv_pct_expr v

/-- Source line 118, `size = LValidator(size_validator, ...)`: the generic
`LValidator.__call__` (missing from `src/`) is modelled from the spec as
invoking the validation rule (the rule itself implements describe mode, and
`size` declares no dynamic-source capability). -/
def size (v : Value) : Except String Value := size_validator v

/-- Source line 120: the radius constant set `LV_RADIUS_` over `CIRCLE`. -/
def radius_consts : LvConstant := ⟨"LV_RADIUS_", ["CIRCLE"]⟩

/-- Source `radius_validator` (lines 123–130): describe mode returns the
constant choices; otherwise `cv.Any(size, cv.percentage,
radius_consts.one_of)`, and a float result is converted by
`int(value * 255)`. -/
def radius_validator (v : Value) : Except String Value :=
  match v with
  | .extract => .ok (.strList radius_consts.choices)
  | _ =>
    match cvAny3 size cv_percentage radius_consts.one_of v with
    | .error e => .error e
    | .ok (.float d) => .ok (.int (d.pyIntMul 255))
    | .ok val => .ok val

/-- Modelled from the spec: `cv.positive_time_period_milliseconds` (missing
from `src/`), the duration-parsing primitive: a nonnegative integer is taken
as milliseconds; a string carries a unit (`ms`, `min`, `s`, `h`) and is
normalized to whole milliseconds. -/
def positive_time_period_milliseconds (v : Value) : Except String Int :=
  let ofInt := fun (n : Int) =>
    if 0 ≤ n then Except.ok n else Except.error "time period must not be negative"
  match v with
  | .int n => ofInt n
  | .str s =>
    if strEndsWith s "ms" then
      match parseInt (strDropRight s 2) with
      | some n => ofInt n
      | none => .error "expected time period with unit"
    else if strEndsWith s "min" then
      match parseInt (strDropRight s 3) with
      | some n => ofInt (n * 60000)
      | none => .error "expected time period with unit"
    else if strEndsWith s "s" then
      match parseInt (strDropRight s 1) with
      | some n => ofInt (n * 1000)
      | none => .error "expected time period with unit"
    else if strEndsWith s "h" then
      match parseInt (strDropRight s 1) with
      | some n => ofInt (n * 3600000)
      | none => .error "expected time period with unit"
    else .error "expected time period with unit"
  | _ => .error "expected time period"

/-- Source `lvms_validator_` (lines 151–154): the literal `"never"` is
replaced by `"2147483647ms"` before duration parsing; the result is the
duration in whole milliseconds (the retmapper on line 160 reads
`total_milliseconds`, modelled here as the integer itself). -/
def lvms_validator_ (v : Value) : Except String Int :=
  let v1 := match v with
    | .str s => if s = "never" then Value.str "2147483647ms" else Value.str s
    | v => v
  positive_time_period_milliseconds v1

/-- Source `TextValidator.__call__` (lines 174–177): a dict is returned
unchanged (no key check); otherwise the generic call (modelled from the spec:
describe mode on the sentinel, else the `cv.string` rule). -/
def lv_text_call (v : Value) : Except String Value :=
  match v with
  | .dict entries => .ok (.dict entries)
  | .extract => .ok (.strList ["string"])
  | v => cv_string v

/-- Source `TextValidator.process` (lines 179–185): a structured map is
emitted as `str_sprintf(<escaped format>, <comma-joined stringified args>)
.c_str()`, reading `args` and then `format` from the dict; a plain value is
emitted by the generic path (modelled from the spec: a string becomes the
escaped string literal, a text-entity reference becomes its accessor). -/
def lv_text_process (v : Value) : Except String String :=
  match v with
  | .dict entries =>
    match dictGet "args" entries with
    | none => .error "KeyError: args"
    | some (.list xs) =>
      match dictGet "format" entries with
      | none => .error "KeyError: format"
      | some (.str f) =>
        .ok ("str_sprintf(" ++ cpp_string_escape f ++ ", " ++
          String.intercalate "," (xs.map pyStr) ++ ").c_str()")
      | some _ => .error "format is not a string"
    | some _ => .error "args is not iterable"
  | .str s => .ok (cpp_string_escape s)
  | .id name => .ok (name ++ "->get_state().c_str()")
  | _ => .error "expected text"

/-- Modelled from the spec: the fixed set `LV_FONTS` of built-in font names
from `defines` (missing from `src/`); the spec names `montserrat_14` as a
declared built-in. -/
def LV_FONTS : List String :=
  ["montserrat_8", "montserrat_10", "montserrat_12", "montserrat_14",
   "montserrat_16", "montserrat_18", "montserrat_20", "montserrat_22",
   "montserrat_24", "montserrat_28", "montserrat_32", "montserrat_36",
   "montserrat_40", "montserrat_44", "montserrat_48", "unscii_8", "unscii_16"]

/-- Source `is_lv_font` (lines 193–194): a string whose lowercasing is a
built-in font name. -/
def is_lv_font (font : Value) : Bool :=
  match font with
  | .str s => LV_FONTS.contains (strLower s)
  | _ => false

/-- Source `lv_builtin_font` (lines 199–202): validate against the built-in
names (lowercased) and record the result in `lv_fonts_used`. -/
def lv_builtin_font (st : Registries) (v : Value) : Except String Value × Registries :=
  match cv_one_of_lower LV_FONTS v with
  | .error e => (.error e, st)
  | .ok fontval =>
    (.ok fontval, { st with lv_fonts_used := addOnce (pyStr fontval) st.lv_fonts_used })

/-- Source `LvFont.validator` (lines 204–211): describe mode enumerates the
built-in names; a built-in font is recorded via `lv_builtin_font`; otherwise
the value must resolve to a declared font asset, which is recorded in
`esphome_fonts_used`, and the `font` component is required (the
`requires_component` helper is missing from `src/` and modelled from the
spec). -/
def font_validator (env : Env) (st : Registries) (v : Value) :
    Except String Value × Registries :=
  match v with
  | .extract => (.ok (.strList LV_FONTS), st)
  | _ =>
    if is_lv_font v then lv_builtin_font st v
    else
      match cv_use_id env.declaredFonts v with
      | .error e => (.error e, st)
      | .ok fontval =>
        let st1 :=
          { st with esphome_fonts_used := addOnce (pyStr fontval) st.esphome_fonts_used }
        (.ok fontval,
          { st1 with lvgl_components_required := addOnce "font" st1.lvgl_components_required })

theorem Dec.toRat_zero : (⟨0, 0⟩ : Dec).toRat = 0 := by
  simp [Dec.toRat]

theorem Dec.toRat_one : (⟨1, 0⟩ : Dec).toRat = 1 := by
  simp [Dec.toRat]

/-- Cross-multiplied integer comparison decides the order of decimal values. -/
theorem Dec.crossLe_iff (a b : Dec) :
    a.man * 10 ^ b.exp ≤ b.man * 10 ^ a.exp ↔ a.toRat ≤ b.toRat := by
  unfold Dec.toRat
  rw [div_le_div_iff₀ (by positivity) (by positivity)]
  constructor <;> intro h <;> exact_mod_cast h

theorem Dec.nonneg_iff (d : Dec) : 0 ≤ d.man ↔ 0 ≤ d.toRat := by
  have h := Dec.crossLe_iff ⟨0, 0⟩ d
  simpa [Dec.toRat_zero] using h

theorem Dec.le_one_iff (d : Dec) : d.man ≤ 10 ^ d.exp ↔ d.toRat ≤ 1 := by
  have h := Dec.crossLe_iff d ⟨1, 0⟩
  simpa [Dec.toRat_one] using h

/-- Truncating conversion of `d * k` agrees with the rational floor when both
factors are nonnegative. -/
theorem Dec.pyIntMul_eq_floor (d : Dec) (k : Int) (h : 0 ≤ d.man) (hk : 0 ≤ k) :
    d.pyIntMul k = ⌊d.toRat * (k : ℚ)⌋ := by
  have hq : d.toRat * (k : ℚ) = ((d.man * k : ℤ) : ℚ) / ((10 ^ d.exp : ℕ) : ℚ) := by
    unfold Dec.toRat
    push_cast
    ring
  rw [hq, Rat.floor_intCast_div_natCast]
  unfold Dec.pyIntMul
  rw [show ((10 ^ d.exp : ℕ) : ℤ) = (10 : ℤ) ^ d.exp by push_cast; ring]
  exact Int.tdiv_eq_ediv (mul_nonneg h hk) (by positivity)

/-- A string ends with `p` exactly when its character list has `p`'s
characters as a suffix. -/
theorem strEndsWith_iff (s p : String) :
    strEndsWith s p = true ↔ ∃ t, s.toList = t ++ p.toList := by
  unfold strEndsWith
  rw [List.isSuffixOf_iff_suffix]
  constructor
  · rintro ⟨t, h⟩
    exact ⟨t, h.symm⟩
  · rintro ⟨t, h⟩
    exact ⟨t, h.symm⟩

/-- A string that ends with `"%"` cannot, after lowercasing, end with
`"px"`. -/
theorem endsWith_percent_not_px (s : String) (h : strEndsWith s "%" = true) :
    strEndsWith (strLower s) "px" = false := by
  rw [strEndsWith_iff] at h
  obtain ⟨t, ht⟩ := h
  apply Bool.eq_false_iff.mpr
  intro hcon
  rw [strEndsWith_iff] at hcon
  obtain ⟨w, hw⟩ := hcon
  have h1 : (strLower s).toList = t.map Char.toLower ++ ['%'] := by
    unfold strLower
    show (s.toList.map Char.toLower) = _
    rw [ht]
    simp
  rw [h1] at hw
  have e1 : (t.map Char.toLower ++ ['%']).getLast? = some '%' := List.getLast?_concat _
  have e2 : (w ++ "px".toList).getLast? = some 'x' := by
    rw [show w ++ "px".toList = (w ++ ['p']) ++ ['x'] by simp]
    exact List.getLast?_concat _
  rw [hw, e2] at e1
  simp at e1

theorem addOnce_of_not_mem (x : String) (l : List String) (h : x ∉ l) :
    addOnce x l = l ++ [x] := if_neg h

theorem addOnce_of_mem (x : String) (l : List String) (h : x ∈ l) :
    addOnce x l = l := if_pos h

/-- C1: the size validator maps `"SIZE_CONTENT"` and `"size_content"` to the
same fixed token `LV_SIZE_CONTENT` (bare strings are matched
case-insensitively), maps `"50%"` to the percent-length expression
`lv_pct(50)`, passes the integer `10` through as the integer literal `10`,
and rejects any string that is not `"px"`-suffixed, not `"%"`-suffixed, and
not a spelling of `size_content` — such as `"abc"` or a string with an
unknown unit — with the shape-mismatch error message instead of falling
through. -/
theorem claim1_size_shapes (s : String)
    (hpx : strEndsWith (strLower s) "px" = false)
    (hpct : strEndsWith s "%" = false)
    (hsc : strUpper s ≠ "SIZE_CONTENT") :
    size_validator (.str "SIZE_CONTENT") = .ok (.str "LV_SIZE_CONTENT") ∧
    size_validator (.str "size_content") = size_validator (.str "SIZE_CONTENT") ∧
    size_validator (.str "50%") = .ok (.str "lv_pct(50)") ∧
    size_validator (.int 10) = .ok (.int 10) ∧
    size_validator (.str s) =
      .error "must be \x27size_content\x27, a pixel position or a percentage" := by
  refine ⟨rfl, rfl, rfl, rfl, ?_⟩
  simp only [size_validator, hpx, Bool.false_eq_true, if_false, hpct, not_false_iff,
    if_true, hsc, ite_false]

/-- C1 witness: `"abc"` satisfies the rejection hypotheses and fails with the
shape-mismatch message. -/
theorem claim1_size_shapes_witness :
    (strEndsWith (strLower "abc") "px" = false ∧ strEndsWith "abc" "%" = false ∧
      strUpper "abc" ≠ "SIZE_CONTENT") ∧
    size_validator (.str "abc") =
      .error "must be \x27size_content\x27, a pixel position or a percentage" :=
  ⟨⟨rfl, rfl, by decide⟩,
    (claim1_size_shapes "abc" rfl rfl (by decide)).2.2.2.2⟩

/-- C2: for every percentage `p ∈ [0, 1]` accepted by the opacity validator,
the result is the integer `⌊p * 255⌋` — the truncating `int()` conversion of
the scaled value, which for nonnegative inputs is the floor, not a rounding —
and it lies in `[0, 255]`. -/
theorem claim2_opacity_floor (d : Dec) (h0 : 0 ≤ d.toRat) (h1 : d.toRat ≤ 1) :
    opacity_validator (.float d) = .ok (.int ⌊d.toRat * 255⌋) ∧
    0 ≤ ⌊d.toRat * 255⌋ ∧ ⌊d.toRat * 255⌋ ≤ 255 := by
  have hm0 : 0 ≤ d.man := (Dec.nonneg_iff d).mpr h0
  have hm1 : d.man ≤ 10 ^ d.exp := (Dec.le_one_iff d).mpr h1
  have hfloor : d.pyIntMul 255 = ⌊d.toRat * 255⌋ := by
    have := Dec.pyIntMul_eq_floor d 255 hm0 (by norm_num)
    simpa using this
  refine ⟨?_, ?_, ?_⟩
  · simp only [opacity_validator, cvAny2, cv_percentage, zero_to_one_float, hm0, hm1,
      and_self, if_true, Except.map, hfloor]
  · exact Int.floor_nonneg.mpr (by positivity)
  · calc ⌊d.toRat * 255⌋ ≤ ⌊(255 : ℚ)⌋ := by
          apply Int.floor_le_floor
          nlinarith
      _ = 255 := by norm_num

/-- C2 witness: the percentage `1.0` is in range and scales to `⌊255⌋`. -/
theorem claim2_opacity_floor_witness :
    (0 ≤ (⟨1, 0⟩ : Dec).toRat ∧ (⟨1, 0⟩ : Dec).toRat ≤ 1) ∧
    opacity_validator (.float ⟨1, 0⟩) = .ok (.int ⌊(⟨1, 0⟩ : Dec).toRat * 255⌋) :=
  ⟨⟨by simp [Dec.toRat], by simp [Dec.toRat]⟩,
    (claim2_opacity_floor ⟨1, 0⟩ (by simp [Dec.toRat]) (by simp [Dec.toRat])).1⟩

/-- C3 counterexample: the radius validator does not scale percentages into
0–255.  On `"50%"` the first `cv.Any` alternative — the size validator —
already succeeds with the percent-length string `lv_pct(50)`, so the result
is not a float and the `int(value * 255)` branch (which would give `127`)
never fires. -/
theorem claim3_radius_counterexample :
    radius_validator (.str "50%") = .ok (.str "lv_pct(50)") ∧
    radius_validator (.str "50%") ≠ .ok (.int 127) := by
  refine ⟨rfl, ?_⟩
  intro h
  rw [show radius_validator (.str "50%") = .ok (.str "lv_pct(50)") from rfl] at h
  injection h with h1
  exact Value.noConfusion h1

/-- C3 amended: every integer passes through the radius validator unchanged;
every percentage input is delegated to the size validator, whose successful
result is always a percent-length string (never a float), so the
`int(value * 255)` scaling branch is unreachable for percentage inputs and
the radius result equals size's `lv_pct` expression. -/
theorem claim3_radius_amended (r : Int) (s : String) (val : Value)
    (hpct : strEndsWith s "%" = true)
    (hok : size_validator (.str s) = .ok val) :
    radius_validator (.int r) = .ok (.int r) ∧
    (∃ t, val = .str t) ∧
    radius_validator (.str s) = .ok val := by
  have hpx : strEndsWith (strLower s) "px" = false := endsWith_percent_not_px s hpct
  have hval : ∃ t, val = .str t := by
    simp only [size_validator, hpx, Bool.false_eq_true, if_false, hpct, not_true,
      ite_false] at hok
    unfold lv_pct_expr at hok
    rcases hp : cv_percentage (.str s) with e | v
    · rw [hp] at hok
      exact absurd hok (by simp)
    · rw [hp] at hok
      cases v
      case float d =>
        simp only [Except.ok.injEq] at hok
        exact ⟨_, hok.symm⟩
      all_goals simp_all
  refine ⟨rfl, hval, ?_⟩
  obtain ⟨t, rfl⟩ := hval
  simp only [radius_validator, cvAny3, size, hok]

/-- C3 amended witness: at `"50%"` the size validator succeeds with
`lv_pct(50)` and radius returns it unchanged. -/
theorem claim3_radius_amended_witness :
    (strEndsWith "50%" "%" = true ∧
      size_validator (.str "50%") = .ok (.str "lv_pct(50)")) ∧
    radius_validator (.int 7) = .ok (.int 7) ∧
    radius_validator (.str "50%") = .ok (.str "lv_pct(50)") :=
  ⟨⟨rfl, rfl⟩,
    (claim3_radius_amended 7 "50%" (.str "lv_pct(50)") rfl rfl).1,
    (claim3_radius_amended 7 "50%" (.str "lv_pct(50)") rfl rfl).2.2⟩

/-- C4 counterexample: not every validator supports describe mode.  The zoom
validator has no sentinel check — it hands the documentation sentinel
straight to its float-range rule, which rejects every non-numeric input — so
invoking it with the sentinel fails instead of returning an enumeration of
accepted shapes. -/
theorem claim4_describe_counterexample :
    zoom Value.extract = .error "expected float" := rfl

/-- C4 amended: every validator that implements describe mode (the
sentinel-checked validators of the module: opacity, color, pixel-or-percent,
size, radius, font) returns its enumeration of accepted shapes on the
sentinel, without error and without touching the resource registries,
whatever their prior state. -/
theorem claim4_describe_amended (env : Env) (st : Registries) :
    opacity_validator .extract = .ok (.strList ["TRANSP", "COVER"]) ∧
    color env .extract = .ok (.strList ["hex color value", "color ID"]) ∧
    pixels_or_percent_validator .extract = .ok (.strList ["pixels", "..%"]) ∧
    size_validator .extract = .ok (.strList ["size_content", "pixels", "..%"]) ∧
    radius_validator .extract = .ok (.strList ["CIRCLE"]) ∧
    font_validator env st .extract = (.ok (.strList LV_FONTS), st) :=
  ⟨rfl, rfl, rfl, rfl, rfl, rfl⟩

/-- C5: validating the built-in font `"montserrat_14"` twice records it in
`lv_fonts_used` exactly once (set semantics) and never touches the other two
registries; a font value whose declared-entity lookup fails produces the
unknown-reference error and leaves all registries untouched. -/
theorem claim5_font_registry (env : Env) (st : Registries) (name : String)
    (hmem : "montserrat_14" ∉ st.lv_fonts_used)
    (hund : name ∉ env.declaredFonts) :
    (font_validator env st (.str "montserrat_14")).1 = .ok (.str "montserrat_14") ∧
    ((font_validator env ((font_validator env st (.str "montserrat_14")).2)
        (.str "montserrat_14")).2).lv_fonts_used.count "montserrat_14" = 1 ∧
    ((font_validator env ((font_validator env st (.str "montserrat_14")).2)
        (.str "montserrat_14")).2).esphome_fonts_used = st.esphome_fonts_used ∧
    ((font_validator env ((font_validator env st (.str "montserrat_14")).2)
        (.str "montserrat_14")).2).lvgl_components_required =
      st.lvgl_components_required ∧
    font_validator env st (.id name) =
      (.error ("unknown reference: couldn\x27t find declared entity " ++ name), st) := by
  have hstep : ∀ st' : Registries, font_validator env st' (.str "montserrat_14") =
      (.ok (.str "montserrat_14"),
        { st' with lv_fonts_used := addOnce "montserrat_14" st'.lv_fonts_used }) := by
    intro st'
    rfl
  have h1 : addOnce "montserrat_14" st.lv_fonts_used = st.lv_fonts_used ++ ["montserrat_14"] :=
    addOnce_of_not_mem _ _ hmem
  have h2 : addOnce "montserrat_14" (st.lv_fonts_used ++ ["montserrat_14"]) =
      st.lv_fonts_used ++ ["montserrat_14"] :=
    addOnce_of_mem _ _ (by simp)
  refine ⟨by rw [hstep st], ?_, ?_, ?_, ?_⟩
  · rw [hstep st]
    rw [hstep]
    simp only [h1, h2]
    rw [List.count_append]
    rw [List.count_eq_zero.mpr hmem]
    rfl
  · rw [hstep st, hstep]
  · rw [hstep st, hstep]
  · simp only [font_validator, is_lv_font, Bool.false_eq_true, if_false, cv_use_id, hund,
      ite_false]

/-- C5 witness: starting from empty registries with no declared fonts, the
double validation records the font once and the unknown id fails cleanly. -/
theorem claim5_font_registry_witness :
    ("montserrat_14" ∉ (⟨[], [], []⟩ : Registries).lv_fonts_used ∧
      "nofont" ∉ (⟨[], []⟩ : Env).declaredFonts) ∧
    ((font_validator ⟨[], []⟩
        ((font_validator ⟨[], []⟩ ⟨[], [], []⟩ (.str "montserrat_14")).2)
        (.str "montserrat_14")).2).lv_fonts_used.count "montserrat_14" = 1 ∧
    font_validator ⟨[], []⟩ ⟨[], [], []⟩ (.id "nofont") =
      (.error "unknown reference: couldn\x27t find declared entity nofont",
        ⟨[], [], []⟩) :=
  ⟨⟨by simp, by simp⟩,
    (claim5_font_registry ⟨[], []⟩ ⟨[], [], []⟩ "nofont" (by simp) (by simp)).2.1,
    (claim5_font_registry ⟨[], []⟩ ⟨[], [], []⟩ "nofont" (by simp) (by simp)).2.2.2.2⟩

/-- C6: for a structured `{format, args}` map, text emission produces
`str_sprintf(<escaped format>, <args>).c_str()`, with the format string
escaped and each argument stringified verbatim and joined by commas; for a
plain string it emits the escaped string literal.  In particular
`{format: "%d items", args: [x]}` yields `str_sprintf("%d items", x).c_str()`
and `"hello"` yields the escaped literal `"hello"` with its quotes. -/
theorem claim6_text_emission (f : String) (xs : List Value) (s : String) :
    lv_text_process (.dict [("format", .str f), ("args", .list xs)]) =
      .ok ("str_sprintf(" ++ cpp_string_escape f ++ ", " ++
        String.intercalate "," (xs.map pyStr) ++ ").c_str()") ∧
    lv_text_process (.str s) = .ok (cpp_string_escape s) ∧
    lv_text_process (.dict [("format", .str "%d items"), ("args", .list [.id "x"])]) =
      .ok "str_sprintf(\"%d items\", x).c_str()" ∧
    lv_text_process (.str "hello") = .ok "\"hello\"" :=
  ⟨rfl, rfl, rfl, rfl⟩

/-- C7: the milliseconds validator maps the literal `"never"` to the maximum
32-bit signed millisecond duration `2147483647`, and every other value is
handed unchanged to the duration parser, which yields the duration in whole
milliseconds — e.g. a nonnegative integer is that many milliseconds,
`"250ms"` is `250`, and `"5s"` is `5000`. -/
theorem claim7_milliseconds (s : String) (hnever : s ≠ "never") :
    lvms_validator_ (.str "never") = .ok 2147483647 ∧
    lvms_validator_ (.str s) = positive_time_period_milliseconds (.str s) ∧
    (∀ n : Int, 0 ≤ n → positive_time_period_milliseconds (.int n) = .ok n) ∧
    lvms_validator_ (.str "250ms") = .ok 250 ∧
    lvms_validator_ (.str "5s") = .ok 5000 := by
  refine ⟨rfl, ?_, ?_, rfl, rfl⟩
  · simp only [lvms_validator_, hnever, ite_false]
  · intro n hn
    simp only [positive_time_period_milliseconds, hn, if_true]

/-- C7 witness: `"5s"` is not `"never"` and parses to 5000 milliseconds. -/
theorem claim7_milliseconds_witness :
    ("5s" : String) ≠ "never" ∧ lvms_validator_ (.str "5s") = .ok 5000 :=
  ⟨by decide, (claim7_milliseconds "5s" (by decide)).2.2.2.2⟩

/-- C8: the zoom validator accepts exactly the floats whose value lies in
`[0.1, 10]` (the validator's integer cross-multiplication test is equivalent
to the rational bounds), maps an accepted `v` to `⌊v * 256⌋` (the truncating
`int(v * 256)`), so `1.0 ↦ 256`, `2.0 ↦ 512`, `10.0 ↦ 2560`, and rejects
every out-of-range value — such as `0.05` — with the range error. -/
theorem claim8_zoom (d : Dec)
    (hlo : (10 : Int) ^ d.exp ≤ d.man * 10) (hhi : d.man ≤ 10 * 10 ^ d.exp) :
    ((1 : ℚ) / 10 ≤ d.toRat ∧ d.toRat ≤ 10) ∧
    zoom (.float d) = .ok ⌊d.toRat * 256⌋ ∧
    zoom (.float ⟨1, 0⟩) = .ok 256 ∧ zoom (.float ⟨2, 0⟩) = .ok 512 ∧
    zoom (.float ⟨10, 0⟩) = .ok 2560 ∧
    zoom (.float ⟨5, 2⟩) = .error "value out of range" ∧
    (∀ e : Dec, ¬ ((1 : ℚ) / 10 ≤ e.toRat ∧ e.toRat ≤ 10) →
      zoom (.float e) = .error "value out of range") := by
  have hrange : ∀ e : Dec,
      ((10 : Int) ^ e.exp ≤ e.man * 10 ∧ e.man ≤ 10 * 10 ^ e.exp) ↔
        ((1 : ℚ) / 10 ≤ e.toRat ∧ e.toRat ≤ 10) := by
    intro e
    have hl := Dec.crossLe_iff ⟨1, 1⟩ e
    have hr := Dec.crossLe_iff e ⟨10, 0⟩
    have hvl : (⟨1, 1⟩ : Dec).toRat = (1 : ℚ) / 10 := by
      norm_num [Dec.toRat]
    have hvr : (⟨10, 0⟩ : Dec).toRat = (10 : ℚ) := by
      norm_num [Dec.toRat]
    rw [hvl] at hl
    rw [hvr] at hr
    constructor
    · rintro ⟨a, b⟩
      exact ⟨hl.mp (by simpa using a), hr.mp (by simpa using b)⟩
    · rintro ⟨a, b⟩
      exact ⟨by simpa using hl.mpr a, by simpa using hr.mpr b⟩
  have hq := (hrange d).mp ⟨hlo, hhi⟩
  have hman : 0 ≤ d.man := by
    have hp : (0 : Int) < 10 ^ d.exp := by positivity
    nlinarith
  have hfloor : d.pyIntMul 256 = ⌊d.toRat * 256⌋ := by
    have := Dec.pyIntMul_eq_floor d 256 hman (by norm_num)
    simpa using this
  refine ⟨hq, ?_, rfl, rfl, rfl, rfl, ?_⟩
  · simp only [zoom, cv_float_range, one_mul, pow_one, pow_zero, mul_one, hlo, hhi,
      and_self, if_true, hfloor]
  · intro e he
    have hcond : ¬ ((10 : Int) ^ e.exp ≤ e.man * 10 ∧ e.man ≤ 10 * 10 ^ e.exp) :=
      fun hc => he ((hrange e).mp hc)
    simp only [zoom, cv_float_range, one_mul, pow_one, pow_zero, mul_one]
    rw [if_neg hcond]

/-- C8 witness: `1.0` satisfies the range hypotheses and scales to
`⌊1 * 256⌋`. -/
theorem claim8_zoom_witness :
    ((10 : Int) ^ (0 : Nat) ≤ 1 * 10 ∧ (1 : Int) ≤ 10 * 10 ^ (0 : Nat)) ∧
    zoom (.float ⟨1, 0⟩) = .ok ⌊(⟨1, 0⟩ : Dec).toRat * 256⌋ :=
  ⟨⟨by decide, by decide⟩, (claim8_zoom ⟨1, 0⟩ (by decide) (by decide)).2.1⟩

/-- C9: the text validator's validation step returns every dict unchanged —
it never checks for the `format` and `args` keys — and a dict lacking either
key is rejected only later, at emission time. -/
theorem claim9_text_dict (entries : List (String × Value))
    (hmiss : dictGet "args" entries = none ∨ dictGet "format" entries = none) :
    lv_text_call (.dict entries) = .ok (.dict entries) ∧
    ∃ e, lv_text_process (.dict entries) = .error e := by
  refine ⟨rfl, ?_⟩
  rcases hmiss with h | h
  · exact ⟨"KeyError: args", by simp [lv_text_process, h]⟩
  · rcases ha : dictGet "args" entries with _ | val
    · exact ⟨"KeyError: args", by simp [lv_text_process, ha]⟩
    · cases val
      case list xs => exact ⟨"KeyError: format", by simp [lv_text_process, ha, h]⟩
      all_goals exact ⟨"args is not iterable", by simp [lv_text_process, ha]⟩

/-- C9 witness: a dict carrying only `format` validates unchanged but fails
at emission. -/
theorem claim9_text_dict_witness :
    (dictGet "args" [("format", Value.str "x")] = none ∨
      dictGet "format" [("format", Value.str "x")] = none) ∧
    lv_text_call (.dict [("format", Value.str "x")]) =
      .ok (.dict [("format", Value.str "x")]) ∧
    ∃ e, lv_text_process (.dict [("format", Value.str "x")]) = .error e :=
  ⟨Or.inl rfl,
    (claim9_text_dict [("format", Value.str "x")] (Or.inl rfl)).1,
    (claim9_text_dict [("format", Value.str "x")] (Or.inl rfl)).2⟩

/-- C10: the color validator accepts every integer unchanged with no range
check (negative values and values above `0xFFFFFF` included), and emitting an
integer produces the hex-color construction with `lvgl_components_required`
untouched; likewise a lambda is emitted without registry effect, and only the
declared-entity-reference branch adds the `color` component requirement. -/
theorem claim10_color (env : Env) (st : Registries) (n : Int) (name body : String) :
    color env (.int n) = .ok (.int n) ∧
    color env (.int (-1)) = .ok (.int (-1)) ∧
    color env (.int 16777216) = .ok (.int 16777216) ∧
    color_retmapper st (.int n) = (.colorHex n, st) ∧
    color_retmapper st (.lam body) = (.returningLambda body, st) ∧
    color_retmapper st (.id name) =
      (.colorFrom name,
        { st with lvgl_components_required := addOnce "color" st.lvgl_components_required }) :=
  ⟨rfl, rfl, rfl, rfl, rfl, rfl⟩

end LvValidation
